import Mathlib

/-!
Verification of src/pytorch.py: a training/tuning script that loads a tabular
dataset, splits it, builds a small MLP, and drives a Ray Tune hyperparameter
search. Pure logic of the script is embedded directly; the semantics of the
library calls it makes (pandas, sklearn, torch DataLoader, pytorch_lightning,
ray tune) are embedded from those libraries' documented behaviour, noted in
the doc comment of each such definition.
-/

set_option autoImplicit false

/-! ### Dataset preparation (module level, src/pytorch.py lines 34-43) -/

/-- Shape-level view of a pandas DataFrame: its column names and row count.
The module-level preparation code only inspects columns and row counts, so
cell values are not modelled. -/
structure DataFrame where
  columns : List String
  nrows : ℕ
deriving DecidableEq

/-- Errors the preparation steps can raise. -/
inductive PrepError
  /-- pandas ValueError from `df.sample(n)` when n exceeds the population. -/
  | sampleTooLarge
  /-- pandas KeyError from `df[col]` when the column is absent. -/
  | keyError (col : String)
deriving DecidableEq

/-- Line 39: the designated target column. -/
def target_column : String := "perf"

/-- pandas `df.sample(n)` draws n rows without replacement and raises a
ValueError when n exceeds the row count (in particular on an empty frame). -/
def sampleRows (n : ℕ) (df : DataFrame) : Except PrepError DataFrame :=
  if n ≤ df.nrows then .ok ⟨df.columns, n⟩ else .error .sampleTooLarge

/-- pandas `df[col]` selects one column, raising a KeyError if absent. -/
def selectColumn (c : String) (df : DataFrame) : Except PrepError DataFrame :=
  if c ∈ df.columns then .ok ⟨[c], df.nrows⟩ else .error (.keyError c)

/-- pandas `df.drop(columns=[c])`. -/
def dropColumn (c : String) (df : DataFrame) : DataFrame :=
  ⟨df.columns.filter (fun s => s ≠ c), df.nrows⟩

/-- Lines 34-43: `df.astype('float32')` keeps the shape, `df.sample(1500)`
subsamples, then `y = df[target_column]` and `X = df.drop(columns=[target_column])`
split features from the target. Returns (X, y) on success. -/
def prepareDataset (df : DataFrame) : Except PrepError (DataFrame × DataFrame) :=
  match sampleRows 1500 df with
  | .error e => .error e
  | .ok sampled =>
    match selectColumn target_column sampled with
    | .error e => .error e
    | .ok y => .ok (dropColumn target_column sampled, y)

/-! ### Trial configurations and results (ray tune data model) -/

/-- One sampled point of the `param_space` dict built at lines 176-182. -/
structure TrialConfig where
  optimizer : String
  loss_function : String
  activation : String
  max_t : ℕ
  grace_period : ℕ
deriving DecidableEq

/-- One completed trial as seen by the driver: its configuration and the
scalar value of the reported "loss" metric (the validation loss). -/
structure TrialResult where
  config : TrialConfig
  loss : ℚ
deriving DecidableEq

/-- Running minimum over a list of trial results, keeping the earliest trial
on ties, exactly as Python's min over an iterable does. -/
def bestOf (t : TrialResult) (ts : List TrialResult) : TrialResult :=
  ts.foldl (fun b r => if r.loss < b.loss then r else b) t

/-- ray `ResultGrid.get_best_result(metric="loss", mode="min")` (line 205):
the completed trial whose reported metric value is minimal; none when no
trial completed. -/
def get_best_result : List TrialResult → Option TrialResult
  | [] => none
  | t :: ts => some (bestOf t ts)

/-- Lines 204-211: after `tuner.fit()` returns the grid of completed trial
results, the driver extracts the best result and returns its configuration.
The sample budget `num_samples` is forwarded to the tuner; the completed
trials are the `results` argument here. -/
def tune_hyperparameters (num_samples : ℕ) (results : List TrialResult) :
    Option TrialConfig :=
  match num_samples, get_best_result results with
  | _, none => none
  | _, some b => some b.config

/-- Line 219: the `__main__` block invokes the driver with `num_samples=18`. -/
def mainNumSamples : ℕ := 18

/-- Outcome of one run of the script. -/
inductive RunResult
  /-- Module-level preparation raised, so `__main__` never ran a trial. -/
  | aborted (e : PrepError)
  /-- Preparation succeeded and `__main__` returned the best configuration. -/
  | tuned (best : Option TrialConfig)
deriving DecidableEq

/-- Whole-script control flow: the module-level preparation (lines 34-43)
runs first; only if it succeeds does `__main__` (lines 214-220) invoke
`tune_hyperparameters` with budget 18, whose completed trials are `results`. -/
def runScript (df : DataFrame) (results : List TrialResult) : RunResult :=
  match prepareDataset df with
  | .error e => .aborted e
  | .ok _ => .tuned (tune_hyperparameters mainNumSamples results)

/-! ### Lookup tables of LightningModel (src/pytorch.py lines 105-126) -/

/-- The optimizer kinds appearing in the `optimizers` dict (lines 106-109). -/
inductive OptKind
  | Adam
  | AdamW
deriving DecidableEq

/-- The loss kinds appearing in the `loss_functions` dict (lines 113-117). -/
inductive LossKind
  | MSE
  | SmoothL1Loss
  | MAE
deriving DecidableEq

/-- The activation kinds appearing in the `activations` dict (lines 121-125). -/
inductive ActKind
  | ReLU
  | PReLU
  | ELU
deriving DecidableEq

/-- An optimizer instance: its kind and the learning rate it was built with. -/
structure OptimizerInst where
  kind : OptKind
  lr : ℚ
deriving DecidableEq

/-- Lines 105-110: the dict literal builds `torch.optim.Adam(..., lr=0.001)`
and `torch.optim.AdamW(..., lr=0.001)` and then indexes it with the
configured name; an unknown name raises a KeyError carrying that name. -/
def get_optimizer (name : String) : Except String OptimizerInst :=
  if name = "Adam" then .ok ⟨.Adam, 1 / 1000⟩
  else if name = "AdamW" then .ok ⟨.AdamW, 1 / 1000⟩
  else .error name

/-- Lines 112-118: dict of `nn.MSELoss()`, `nn.SmoothL1Loss()`, `nn.L1Loss()`
indexed by the configured name; an unknown name raises a KeyError. -/
def get_loss_function (name : String) : Except String LossKind :=
  if name = "MSE" then .ok .MSE
  else if name = "SmoothL1Loss" then .ok .SmoothL1Loss
  else if name = "MAE" then .ok .MAE
  else .error name

/-- Lines 120-126: dict of `nn.ReLU()`, `nn.PReLU()`, `nn.ELU()` indexed by
the configured name; an unknown name raises a KeyError. -/
def get_activation (name : String) : Except String ActKind :=
  if name = "ReLU" then .ok .ReLU
  else if name = "PReLU" then .ok .PReLU
  else if name = "ELU" then .ok .ELU
  else .error name

/-! ### Model construction (LightningModel.build_model, lines 128-139) -/

/-- One layer of the `nn.Sequential` built by `build_model`. -/
inductive Layer
  | linear (inFeatures outFeatures : ℕ)
  | activ (a : ActKind)
  | dropout (p : ℚ)
deriving DecidableEq

/-- Line 129: `hidden_size = self.num_features // 2` (integer floor division). -/
def hidden_size (num_features : ℕ) : ℕ := num_features / 2

/-- Line 130: `hidden_size2 = hidden_size // 2`. -/
def hidden_size2 (num_features : ℕ) : ℕ := hidden_size num_features / 2

/-- Lines 131-139: the exact `nn.Sequential` layer list, given the already
resolved activation. No width is guarded or validated. -/
def buildModelLayers (num_features : ℕ) (a : ActKind) : List Layer :=
  [.linear num_features (hidden_size num_features),
   .activ a,
   .dropout ((3 : ℚ) / 10),
   .linear (hidden_size num_features) (hidden_size2 num_features),
   .activ a,
   .dropout ((3 : ℚ) / 10),
   .linear (hidden_size2 num_features) 1]

/-- Lines 128-139 with the two `self.get_activation()` calls resolved from
the configured name (both calls use the same key, hence the same kind). -/
def build_model (num_features : ℕ) (activation : String) :
    Except String (List Layer) :=
  (get_activation activation).map (buildModelLayers num_features)

/-- Shape semantics of one layer: a linear layer maps a vector of its input
width to one of its output width, activations and dropout keep the width. -/
def layerOutDim : Layer → ℕ → Option ℕ
  | .linear i o, d => if d = i then some o else none
  | .activ _, d => some d
  | .dropout _, d => some d

/-- Shape semantics of the whole sequential model on an input of width d. -/
def forwardDim (layers : List Layer) (d : ℕ) : Option ℕ :=
  layers.foldl (fun od l => od.bind (layerOutDim l)) (some d)

/-! ### The trainable unit (train_model_tune, lines 142-172) -/

/-- Everything `train_model_tune` passes to the constructors it calls:
the `LightningModel` arguments, the `ModelCheckpoint` arguments and the
`L.Trainer` arguments, as a record. -/
structure TrainSetup where
  modelNumFeatures : ℕ
  modelActivation : String
  modelOptimizer : String
  modelLoss : String
  ckptSaveTopK : ℤ
  ckptMonitor : Option String
  ckptEveryNEpochs : ℕ
  trainerMaxEpochs : ℕ
  trainerEnableProgressBar : Bool
deriving DecidableEq

/-- Lines 142-172: the model is built from `config["activation"]`,
`config["optimizer"]`, `config["loss_function"]`; the checkpoint callback is
built with `save_top_k=5`, `every_n_epochs=1` and no `monitor` argument
(so `monitor` keeps its default `None`); the trainer is built with
`max_epochs=max_epochs` and the progress bar enabled exactly when stdout is
a tty. The per-trial `max_t` and `grace_period` entries are never read. -/
def train_model_tune (config : TrialConfig) (num_features : ℕ)
    (isTty : Bool) (max_epochs : ℕ) : TrainSetup :=
  ⟨num_features, config.activation, config.optimizer, config.loss_function,
   5, none, 1, max_epochs, isTty⟩

/-- Line 193: `functools` wraps `train_model_tune` for the tuner, leaving
`max_epochs` at its default of 100. -/
def tunerTrainable (num_features : ℕ) (isTty : Bool)
    (config : TrialConfig) : TrainSetup :=
  train_model_tune config num_features isTty 100

/-- pytorch_lightning `ModelCheckpoint.__init__` validation (its
`__validate_init_configuration`): when `monitor` is None there is no
quantity to rank checkpoints by, so `save_top_k` must be -1, 0 or 1;
any other value raises a MisconfigurationException. -/
def modelCheckpointValidate (save_top_k : ℤ) (monitor : Option String) :
    Except String Unit :=
  if monitor = none ∧ save_top_k ≠ -1 ∧ save_top_k ≠ 0 ∧ save_top_k ≠ 1 then
    .error "MisconfigurationException: no quantity for top_k to track"
  else .ok ()

/-! ### Scheduler construction in tune_hyperparameters (lines 176-190) -/

/-- A value passed as an `ASHAScheduler` constructor argument. -/
inductive SchedArg
  | ofInt (n : ℤ)
  | ofStr (s : String)
deriving DecidableEq

/-- ray `tune.grid_search(values)` returns the single-key dict
`{"grid_search": values}`; this records the wrapped candidate list. -/
structure GridSearchSpec where
  values : List ℤ
deriving DecidableEq

/-- Iterating a Python dict yields its keys; a grid-search spec dict has the
single key "grid_search" whatever the candidate list is. -/
def gridKeys (_ : GridSearchSpec) : List String := ["grid_search"]

/-- Python `max` over a nonempty list of strings (lexicographic order). -/
def maxKey : String → List String → String
  | k, [] => k
  | k, k2 :: ks => maxKey (if k < k2 then k2 else k) ks

/-- Python `min` over a nonempty list of strings (lexicographic order). -/
def minKey : String → List String → String
  | k, [] => k
  | k, k2 :: ks => minKey (if k2 < k then k2 else k) ks

/-- Python `max(d)` for a dict d iterates the keys; none on an empty dict. -/
def pyMaxOverDict (g : GridSearchSpec) : Option SchedArg :=
  match gridKeys g with
  | [] => none
  | k :: ks => some (.ofStr (maxKey k ks))

/-- Python `min(d)` for a dict d iterates the keys; none on an empty dict. -/
def pyMinOverDict (g : GridSearchSpec) : Option SchedArg :=
  match gridKeys g with
  | [] => none
  | k :: ks => some (.ofStr (minKey k ks))

/-- Line 180: `"max_t": tune.grid_search([20, 30, 40])`. -/
def maxTSpec : GridSearchSpec := ⟨[20, 30, 40]⟩

/-- Line 181: `"grace_period": tune.grid_search([5, 10, 15])`. -/
def gracePeriodSpec : GridSearchSpec := ⟨[5, 10, 15]⟩

/-- Line 187: the `max_t` argument handed to `ASHAScheduler` is
`max(config['max_t'])`, i.e. Python max over the grid-search dict. -/
def schedulerMaxTArg : Option SchedArg := pyMaxOverDict maxTSpec

/-- Line 188: the `grace_period` argument handed to `ASHAScheduler` is
`min(config['grace_period'])`, i.e. Python min over the grid-search dict. -/
def schedulerGracePeriodArg : Option SchedArg := pyMinOverDict gracePeriodSpec

/-! ### DataLoaders (src/pytorch.py lines 66-73) -/

/-- Line 70: `num_workers = min(8, multiprocessing.cpu_count())`. -/
def num_workers (cpu_count : ℕ) : ℕ := min 8 cpu_count

/-- The constructor arguments of a `torch.utils.data.DataLoader`. -/
structure LoaderCfg where
  batch_size : ℕ
  shuffle : Bool
  numWorkers : ℕ
deriving DecidableEq

/-- Line 72: the training loader, batch size 1024, shuffled. -/
def train_dataloader_cfg (cpu_count : ℕ) : LoaderCfg :=
  ⟨1024, true, num_workers cpu_count⟩

/-- Line 73: the evaluation loader, batch size 1024, unshuffled. -/
def test_dataloader_cfg (cpu_count : ℕ) : LoaderCfg :=
  ⟨1024, false, num_workers cpu_count⟩

/-- torch `DataLoader` batching with the default `drop_last=False`: the
dataset is cut into consecutive batches of `batch_size`, the last possibly
smaller. A batch size of 0 is rejected by torch and never occurs here. -/
def batches {α : Type} : ℕ → List α → List (List α)
  | _, [] => []
  | 0, _ :: _ => []
  | B + 1, x :: xs => (x :: xs).take (B + 1) :: batches (B + 1) ((x :: xs).drop (B + 1))
termination_by _ xs => xs.length
decreasing_by simp [List.length_drop]; omega

/-! ### Train/test split (src/pytorch.py line 43) -/

/-- sklearn `_validate_shuffle_split` with `test_size=0.2`: the test set gets
`ceil(0.2 * n)` rows, the train set the remaining rows. -/
def n_test (n : ℕ) : ℕ := (n + 4) / 5

/-- Rows reordered by a list of indices (out-of-range indices are skipped;
they never occur for a permutation of the valid range). -/
def applyPerm {α : Type} (xs : List α) (perm : List ℕ) : List α :=
  perm.filterMap (fun i => xs[i]?)

/-- sklearn `train_test_split(X, y, test_size=0.2, random_state=42)` for one
of the arrays: the seeded shuffler produces a permutation of the row indices
as a pure function of `random_state` and the row count; the first
`ceil(0.2*n)` shuffled rows form the test set and the rest the train set.
The permutation itself is RNG-internal, so it is a parameter here; every
property below holds for all permutations of the index range, and the actual
one is fixed by the seed 42. Returns (train, test). -/
def train_test_split {α : Type} (xs : List α) (perm : List ℕ) :
    List α × List α :=
  ((applyPerm xs perm).drop (n_test xs.length),
   (applyPerm xs perm).take (n_test xs.length))

/-! ### Concrete instances used as test inputs below -/

/-- A dataset shape with 1500 rows and no "perf" column. -/
def dfNoTarget : DataFrame := ⟨["featA", "featB"], 1500⟩

/-- An empty dataset shape. -/
def dfEmpty : DataFrame := ⟨["featA", "perf"], 0⟩

/-- Stub trial configurations for exercising best-result extraction. -/
def stubConfigA : TrialConfig := ⟨"Adam", "MSE", "ReLU", 20, 5⟩

def stubConfigB : TrialConfig := ⟨"AdamW", "MAE", "ELU", 30, 10⟩

def stubConfigC : TrialConfig := ⟨"Adam", "SmoothL1Loss", "PReLU", 40, 15⟩

/-- Three completed stub trials reporting losses 0.5, 0.2 and 0.9. -/
def stubTrials : List TrialResult :=
  [⟨stubConfigA, 5 / 10⟩, ⟨stubConfigB, 2 / 10⟩, ⟨stubConfigC, 9 / 10⟩]

/-- A trial configuration that sampled max_t = 20 and grace_period = 15. -/
def cfgSampledBounds : TrialConfig := ⟨"Adam", "MSE", "ReLU", 20, 15⟩

/-- Two configurations agreeing on optimizer, loss and activation but
differing in both sampled schedule knobs. -/
def cfgVariantA : TrialConfig := ⟨"AdamW", "MAE", "ELU", 20, 5⟩

def cfgVariantB : TrialConfig := ⟨"AdamW", "MAE", "ELU", 40, 15⟩

/-- Five data rows and one permutation of their index range. -/
def splitRows : List ℕ := [10, 20, 30, 40, 50]

def splitPerm : List ℕ := [2, 0, 4, 1, 3]


theorem batches_length_le {α : Type} (b : ℕ) :
    ∀ (n : ℕ) (xs : List α), xs.length ≤ n →
      (batches (b + 1) xs).length = (xs.length + (b + 1) - 1) / (b + 1) := by
  intro n
  induction n with
  | zero =>
    intro xs h
    have hx : xs = [] := List.eq_nil_of_length_eq_zero (Nat.le_zero.mp h)
    subst hx
    simp [batches, Nat.div_eq_of_lt (show b < b + 1 by omega)]
  | succ n IH =>
    intro xs h
    cases xs with
    | nil => simp [batches, Nat.div_eq_of_lt (show b < b + 1 by omega)]
    | cons x l =>
      rw [batches]
      have hIH := IH ((x :: l).drop (b + 1))
        (by simp only [List.length_drop, List.length_cons]
            simp only [List.length_cons] at h
            omega)
      simp only [List.length_cons, hIH, List.length_drop]
      rcases le_or_lt (b + 1) (l.length + 1) with hle | hlt
      · have e1 : l.length + 1 - (b + 1) + (b + 1) - 1 = l.length := by omega
        have e2 : l.length + 1 + (b + 1) - 1 = l.length + (b + 1) := by omega
        rw [e1, e2, Nat.add_div_right _ (show 0 < b + 1 by omega)]
      · have e1 : l.length + 1 - (b + 1) = 0 := by omega
        rw [e1]
        have h1 : (0 + (b + 1) - 1) / (b + 1) = 0 := Nat.div_eq_of_lt (by omega)
        rw [h1]
        have h2 : 1 ≤ (l.length + 1 + (b + 1) - 1) / (b + 1) :=
          (Nat.le_div_iff_mul_le (show 0 < b + 1 by omega)).mpr (by omega)
        have h3 : (l.length + 1 + (b + 1) - 1) / (b + 1) < 2 :=
          (Nat.div_lt_iff_lt_mul (show 0 < b + 1 by omega)).mpr (by omega)
        omega

theorem batches_flatten_le {α : Type} (b : ℕ) :
    ∀ (n : ℕ) (xs : List α), xs.length ≤ n → (batches (b + 1) xs).flatten = xs := by
  intro n
  induction n with
  | zero =>
    intro xs h
    have hx : xs = [] := List.eq_nil_of_length_eq_zero (Nat.le_zero.mp h)
    subst hx
    simp [batches]
  | succ n IH =>
    intro xs h
    cases xs with
    | nil => simp [batches]
    | cons x l =>
      rw [batches, List.flatten_cons,
        IH ((x :: l).drop (b + 1))
          (by simp only [List.length_drop, List.length_cons]
              simp only [List.length_cons] at h
              omega),
        List.take_append_drop]

theorem batches_sizes_le {α : Type} (b : ℕ) :
    ∀ (n : ℕ) (xs : List α), xs.length ≤ n →
      ∀ c ∈ batches (b + 1) xs, c ≠ [] ∧ c.length ≤ b + 1 := by
  intro n
  induction n with
  | zero =>
    intro xs h
    have hx : xs = [] := List.eq_nil_of_length_eq_zero (Nat.le_zero.mp h)
    subst hx
    simp [batches]
  | succ n IH =>
    intro xs h
    cases xs with
    | nil => simp [batches]
    | cons x l =>
      rw [batches]
      intro c hc
      rcases List.mem_cons.mp hc with rfl | hc2
      · constructor
        · simp [List.take_succ_cons]
        · simp only [List.length_take, List.length_cons]
          omega
      · exact IH ((x :: l).drop (b + 1))
          (by simp only [List.length_drop, List.length_cons]
              simp only [List.length_cons] at h
              omega) c hc2

theorem batches_ne_nil {α : Type} (b : ℕ) (x : α) (l : List α) :
    batches (b + 1) (x :: l) ≠ [] := by
  rw [batches]
  exact List.cons_ne_nil _ _

theorem batches_dropLast_le {α : Type} (b : ℕ) :
    ∀ (n : ℕ) (xs : List α), xs.length ≤ n →
      ∀ c ∈ (batches (b + 1) xs).dropLast, c.length = b + 1 := by
  intro n
  induction n with
  | zero =>
    intro xs h
    have hx : xs = [] := List.eq_nil_of_length_eq_zero (Nat.le_zero.mp h)
    subst hx
    simp [batches]
  | succ n IH =>
    intro xs h
    cases xs with
    | nil => simp [batches]
    | cons x l =>
      rw [batches]
      cases hrest : (x :: l).drop (b + 1) with
      | nil => simp [batches]
      | cons y t =>
        have hlen : (y :: t).length = l.length + 1 - (b + 1) := by
          rw [← hrest, List.length_drop, List.length_cons]
        have hne : batches (b + 1) (y :: t) ≠ [] := batches_ne_nil b y t
        rcases List.exists_cons_of_ne_nil hne with ⟨c0, cs, hcons⟩
        rw [hcons, List.dropLast_cons₂, ← hcons]
        intro c hc
        rcases List.mem_cons.mp hc with rfl | hc2
        · simp only [List.length_take, List.length_cons]
          simp only [List.length_cons] at hlen
          omega
        · refine IH (y :: t) ?_ c hc2
          simp only [List.length_cons] at hlen h ⊢
          omega

theorem applyPerm_range {α : Type} (xs : List α) :
    applyPerm xs (List.range xs.length) = xs := by
  induction xs with
  | nil => rfl
  | cons a t IH =>
    show List.filterMap (fun i => (a :: t)[i]?) (List.range (t.length + 1)) = a :: t
    rw [List.range_succ_eq_map, List.filterMap_cons, List.filterMap_map]
    have hcomp :
        ((fun i => (a :: t)[i]?) ∘ Nat.succ) = fun i => t[i]? := by
      funext i
      simp [List.getElem?_cons_succ]
    simp only [List.getElem?_cons_zero, hcomp]
    exact congrArg (a :: ·) IH

theorem applyPerm_perm {α : Type} (xs : List α) (perm : List ℕ)
    (h : perm.Perm (List.range xs.length)) : (applyPerm xs perm).Perm xs := by
  have h2 := h.filterMap (fun i => xs[i]?)
  have h3 : List.filterMap (fun i => xs[i]?) (List.range xs.length) = xs :=
    applyPerm_range xs
  rw [h3] at h2
  exact h2

theorem bestOf_mem (t : TrialResult) (ts : List TrialResult) :
    bestOf t ts ∈ t :: ts := by
  induction ts generalizing t with
  | nil => simp [bestOf]
  | cons r rs IH =>
    have e : bestOf t (r :: rs) = bestOf (if r.loss < t.loss then r else t) rs := rfl
    rw [e]
    rcases List.mem_cons.mp (IH (if r.loss < t.loss then r else t)) with h1 | h2
    · rw [h1]
      split
      · exact List.mem_cons_of_mem _ (List.mem_cons_self _ _)
      · exact List.mem_cons_self _ _
    · exact List.mem_cons_of_mem _ (List.mem_cons_of_mem _ h2)

theorem bestOf_le (t : TrialResult) (ts : List TrialResult) :
    ∀ r ∈ t :: ts, (bestOf t ts).loss ≤ r.loss := by
  induction ts generalizing t with
  | nil =>
    intro r hr
    rcases List.mem_cons.mp hr with h4 | hr2
    · rw [h4]
      exact le_refl _
    · cases hr2
  | cons s rs IH =>
    intro r hr
    by_cases h : s.loss < t.loss
    · have e : bestOf t (s :: rs) = bestOf s rs := by
        simp only [bestOf, List.foldl_cons, if_pos h]
      rw [e]
      rcases List.mem_cons.mp hr with h4 | hr2
      · rw [h4]
        exact le_trans (IH s s (List.mem_cons_self _ _)) (le_of_lt h)
      · exact IH s r hr2
    · have e : bestOf t (s :: rs) = bestOf t rs := by
        simp only [bestOf, List.foldl_cons, if_neg h]
      rw [e]
      rcases List.mem_cons.mp hr with h4 | hr2
      · rw [h4]
        exact IH t t (List.mem_cons_self _ _)
      · rcases List.mem_cons.mp hr2 with h5 | hr3
        · rw [h5]
          exact le_trans (IH t t (List.mem_cons_self _ _)) (le_of_not_lt h)
        · exact IH t r (List.mem_cons_of_mem _ hr3)

/-- C1: invoked with the sample budget 18, the driver returns the
configuration of a completed trial whose reported validation loss is a
global minimum: for every completed trial t, the selected trial's loss is
at most t's loss, and the returned configuration is the selected trial's. -/
theorem C1_best_extraction (results : List TrialResult) (t : TrialResult)
    (h : t ∈ results) :
    ∃ b : TrialResult, get_best_result results = some b ∧ b ∈ results ∧
      b.loss ≤ t.loss ∧
      tune_hyperparameters mainNumSamples results = some b.config ∧
      mainNumSamples = 18 := by
  cases results with
  | nil => cases h
  | cons r rs =>
    exact ⟨bestOf r rs, rfl, bestOf_mem r rs, bestOf_le r rs t h, rfl, rfl⟩

/-- C1 witness: on the three-trial stub reporting losses 0.5, 0.2, 0.9 the
selected trial is the one with loss 0.2, and the theorem instantiates at
the loss-0.5 trial. -/
theorem C1_best_extraction_witness :
    (⟨stubConfigA, 5 / 10⟩ : TrialResult) ∈ stubTrials ∧
    get_best_result stubTrials = some ⟨stubConfigB, 2 / 10⟩ ∧
    (∃ b : TrialResult, get_best_result stubTrials = some b ∧ b ∈ stubTrials ∧
      b.loss ≤ (⟨stubConfigA, 5 / 10⟩ : TrialResult).loss ∧
      tune_hyperparameters mainNumSamples stubTrials = some b.config ∧
      mainNumSamples = 18) :=
  ⟨by simp [stubTrials],
   by norm_num [get_best_result, bestOf, stubTrials, stubConfigA, stubConfigB,
     stubConfigC],
   C1_best_extraction stubTrials ⟨stubConfigA, 5 / 10⟩ (by simp [stubTrials])⟩

/-- C6: when the target column "perf" is absent (and the sampling step has
enough rows to pass), preparation fails with a KeyError raised at the
feature/target split, and the whole run aborts before any trial outcome;
when the dataset is empty, preparation fails already at the sampling step
and the run likewise aborts. -/
theorem C6_preparation_failure (df dfe : DataFrame)
    (h1 : target_column ∉ df.columns) (h2 : 1500 ≤ df.nrows)
    (h3 : dfe.nrows = 0) :
    sampleRows 1500 df = .ok ⟨df.columns, 1500⟩ ∧
    selectColumn target_column ⟨df.columns, 1500⟩ = .error (.keyError "perf") ∧
    prepareDataset df = .error (.keyError "perf") ∧
    (∀ results, runScript df results = .aborted (.keyError "perf")) ∧
    prepareDataset dfe = .error .sampleTooLarge ∧
    (∀ results, runScript dfe results = .aborted .sampleTooLarge) := by
  have hs : sampleRows 1500 df = .ok ⟨df.columns, 1500⟩ := by
    simp [sampleRows, h2]
  have hsel : selectColumn target_column ⟨df.columns, 1500⟩ =
      .error (.keyError "perf") := by
    simp only [selectColumn]
    rw [if_neg]
    · rfl
    · exact h1
  have hprep : prepareDataset df = .error (.keyError "perf") := by
    simp [prepareDataset, hs, hsel]
  have hse : sampleRows 1500 dfe = .error .sampleTooLarge := by
    simp [sampleRows, h3]
  have hprepe : prepareDataset dfe = .error .sampleTooLarge := by
    simp [prepareDataset, hse]
  refine ⟨hs, hsel, hprep, ?_, hprepe, ?_⟩
  · intro results
    simp [runScript, hprep]
  · intro results
    simp [runScript, hprepe]

/-- C6 witness: a 1500-row frame without "perf" aborts at the split with a
KeyError; an empty frame aborts at the sampling step. -/
theorem C6_preparation_failure_witness :
    (target_column ∉ dfNoTarget.columns ∧ 1500 ≤ dfNoTarget.nrows ∧
      dfEmpty.nrows = 0) ∧
    (sampleRows 1500 dfNoTarget = .ok ⟨dfNoTarget.columns, 1500⟩ ∧
    selectColumn target_column ⟨dfNoTarget.columns, 1500⟩ =
      .error (.keyError "perf") ∧
    prepareDataset dfNoTarget = .error (.keyError "perf") ∧
    (∀ results, runScript dfNoTarget results = .aborted (.keyError "perf")) ∧
    prepareDataset dfEmpty = .error .sampleTooLarge ∧
    (∀ results, runScript dfEmpty results = .aborted .sampleTooLarge)) :=
  ⟨⟨by decide, by decide, by decide⟩,
   C6_preparation_failure dfNoTarget dfEmpty (by decide) (by decide) (by decide)⟩

/-- C7: every optimizer/loss/activation key outside the enumerated sets
resolves to a KeyError at configuration-resolution time, and every key
inside them resolves to the corresponding instance, the optimizers with
learning rate 0.001. -/
theorem C7_lookup_resolution :
    (∀ name : String, name ∉ ["Adam", "AdamW"] →
      get_optimizer name = .error name) ∧
    (∀ name : String, name ∉ ["MSE", "SmoothL1Loss", "MAE"] →
      get_loss_function name = .error name) ∧
    (∀ name : String, name ∉ ["ReLU", "PReLU", "ELU"] →
      get_activation name = .error name) ∧
    get_optimizer "Adam" = .ok ⟨.Adam, 1 / 1000⟩ ∧
    get_optimizer "AdamW" = .ok ⟨.AdamW, 1 / 1000⟩ ∧
    get_loss_function "MSE" = .ok .MSE ∧
    get_loss_function "SmoothL1Loss" = .ok .SmoothL1Loss ∧
    get_loss_function "MAE" = .ok .MAE ∧
    get_activation "ReLU" = .ok .ReLU ∧
    get_activation "PReLU" = .ok .PReLU ∧
    get_activation "ELU" = .ok .ELU := by
  refine ⟨?_, ?_, ?_, rfl, rfl, rfl, rfl, rfl, rfl, rfl, rfl⟩
  · intro name h
    simp only [List.mem_cons, List.not_mem_nil, or_false] at h
    push_neg at h
    simp [get_optimizer, h.1, h.2]
  · intro name h
    simp only [List.mem_cons, List.not_mem_nil, or_false] at h
    push_neg at h
    simp [get_loss_function, h.1, h.2.1, h.2.2]
  · intro name h
    simp only [List.mem_cons, List.not_mem_nil, or_false] at h
    push_neg at h
    simp [get_activation, h.1, h.2.1, h.2.2]

/-- C7 witness: the unknown keys "SGD", "Huber" and "Tanh" each raise a
KeyError, while "Adam" resolves to the Adam instance with lr 0.001. -/
theorem C7_lookup_resolution_witness :
    ("SGD" : String) ∉ ["Adam", "AdamW"] ∧
    get_optimizer "SGD" = .error "SGD" ∧
    ("Huber" : String) ∉ ["MSE", "SmoothL1Loss", "MAE"] ∧
    get_loss_function "Huber" = .error "Huber" ∧
    ("Tanh" : String) ∉ ["ReLU", "PReLU", "ELU"] ∧
    get_activation "Tanh" = .error "Tanh" ∧
    get_optimizer "Adam" = .ok ⟨.Adam, 1 / 1000⟩ :=
  ⟨by decide, C7_lookup_resolution.1 "SGD" (by decide),
   by decide, C7_lookup_resolution.2.1 "Huber" (by decide),
   by decide, C7_lookup_resolution.2.2.1 "Tanh" (by decide),
   C7_lookup_resolution.2.2.2.1⟩

/-- C4: for every feature count n and every activation key in the enumerated
set, the built model is exactly linear(n, n/2), activation, dropout(0.3),
linear(n/2, n/2/2), activation, dropout(0.3), linear(n/2/2, 1); its forward
pass maps a width-n feature vector to a scalar (width 1); and every
activation layer in it carries exactly the kind resolved from that key, so
no activation outside the enumerated set is used. -/
theorem C4_model_structure (n : ℕ) (name : String)
    (h : name ∈ ["ReLU", "PReLU", "ELU"]) :
    ∃ a : ActKind, get_activation name = .ok a ∧
      build_model n name = .ok (buildModelLayers n a) ∧
      buildModelLayers n a =
        [.linear n (n / 2), .activ a, .dropout ((3 : ℚ) / 10),
         .linear (n / 2) (n / 2 / 2), .activ a, .dropout ((3 : ℚ) / 10),
         .linear (n / 2 / 2) 1] ∧
      forwardDim (buildModelLayers n a) n = some 1 ∧
      (∀ l ∈ buildModelLayers n a, ∀ k : ActKind,
        l = .activ k → get_activation name = .ok k) := by
  have hfd : ∀ a : ActKind, forwardDim (buildModelLayers n a) n = some 1 := by
    intro a
    simp [forwardDim, buildModelLayers, layerOutDim, hidden_size, hidden_size2]
  have hmem : ∀ a : ActKind, ∀ l ∈ buildModelLayers n a, ∀ k : ActKind,
      l = .activ k → a = k := by
    intro a l hl k hk
    subst hk
    simp [buildModelLayers] at hl
    exact hl.symm
  simp only [List.mem_cons, List.not_mem_nil, or_false] at h
  rcases h with rfl | rfl | rfl
  · refine ⟨.ReLU, rfl, rfl, rfl, hfd _, ?_⟩
    intro l hl k hk
    rw [← hmem .ReLU l hl k hk]
    rfl
  · refine ⟨.PReLU, rfl, rfl, rfl, hfd _, ?_⟩
    intro l hl k hk
    rw [← hmem .PReLU l hl k hk]
    rfl
  · refine ⟨.ELU, rfl, rfl, rfl, hfd _, ?_⟩
    intro l hl k hk
    rw [← hmem .ELU l hl k hk]
    rfl

/-- C4 witness: the theorem instantiated at 8 input features and the key
"PReLU". -/
theorem C4_model_structure_witness :
    ("PReLU" : String) ∈ ["ReLU", "PReLU", "ELU"] ∧
    (∃ a : ActKind, get_activation "PReLU" = .ok a ∧
      build_model 8 "PReLU" = .ok (buildModelLayers 8 a) ∧
      buildModelLayers 8 a =
        [.linear 8 (8 / 2), .activ a, .dropout ((3 : ℚ) / 10),
         .linear (8 / 2) (8 / 2 / 2), .activ a, .dropout ((3 : ℚ) / 10),
         .linear (8 / 2 / 2) 1] ∧
      forwardDim (buildModelLayers 8 a) 8 = some 1 ∧
      (∀ l ∈ buildModelLayers 8 a, ∀ k : ActKind,
        l = .activ k → get_activation "PReLU" = .ok k)) :=
  ⟨by decide, C4_model_structure 8 "PReLU" (by decide)⟩

/-- C10: hidden widths are integer floor divisions — for every feature count
m the widths are m/2 and (m/2)/2 — so for every n at most 3 the second
hidden layer has width 0, and model construction still succeeds with that
degenerate width (no guard or validation exists). -/
theorem C10_degenerate_widths (n : ℕ) (a : ActKind) (h : n ≤ 3) :
    (∀ m : ℕ, hidden_size m = m / 2 ∧ hidden_size2 m = m / 2 / 2) ∧
    hidden_size2 n = 0 ∧
    buildModelLayers n a =
      [.linear n (n / 2), .activ a, .dropout ((3 : ℚ) / 10),
       .linear (n / 2) 0, .activ a, .dropout ((3 : ℚ) / 10),
       .linear 0 1] ∧
    build_model n "ReLU" = .ok (buildModelLayers n .ReLU) := by
  have h0 : hidden_size2 n = 0 := by
    unfold hidden_size2 hidden_size
    omega
  refine ⟨fun m => ⟨rfl, rfl⟩, h0, ?_, rfl⟩
  simp [buildModelLayers, h0, hidden_size]

/-- C10 witness: at 3 input features the second hidden layer has width 0
and construction proceeds regardless. -/
theorem C10_degenerate_widths_witness :
    (3 : ℕ) ≤ 3 ∧
    ((∀ m : ℕ, hidden_size m = m / 2 ∧ hidden_size2 m = m / 2 / 2) ∧
    hidden_size2 3 = 0 ∧
    buildModelLayers 3 .ELU =
      [.linear 3 (3 / 2), .activ .ELU, .dropout ((3 : ℚ) / 10),
       .linear (3 / 2) 0, .activ .ELU, .dropout ((3 : ℚ) / 10),
       .linear 0 1] ∧
    build_model 3 "ReLU" = .ok (buildModelLayers 3 .ReLU)) :=
  ⟨by decide, C10_degenerate_widths 3 .ELU (by decide)⟩

/-- C5: the checkpoint callback of every trial is constructed with
save_top_k = 5 and every_n_epochs = 1 but with no monitored quantity
(monitor keeps its default None), a combination pytorch_lightning rejects
with a MisconfigurationException, so no best-5 retention takes place. -/
theorem C5_checkpoint_misconfigured (cfg : TrialConfig) (nf : ℕ) (tty : Bool) :
    (tunerTrainable nf tty cfg).ckptSaveTopK = 5 ∧
    (tunerTrainable nf tty cfg).ckptMonitor = none ∧
    (tunerTrainable nf tty cfg).ckptEveryNEpochs = 1 ∧
    modelCheckpointValidate (tunerTrainable nf tty cfg).ckptSaveTopK
        (tunerTrainable nf tty cfg).ckptMonitor =
      .error "MisconfigurationException: no quantity for top_k to track" := by
  refine ⟨rfl, rfl, rfl, ?_⟩
  simp [modelCheckpointValidate, tunerTrainable, train_model_tune]

/-- C2 counterexample: the trial that sampled max_t = 20 (and
grace_period = 15) gets a Trainer configured to run 100 epochs, so the
sampled maximum-iteration value does not bound the trial it was sampled
for, refuting the claim at this concrete configuration. -/
theorem C2_counterexample :
    cfgSampledBounds.max_t = 20 ∧ cfgSampledBounds.grace_period = 15 ∧
    (tunerTrainable 10 false cfgSampledBounds).trainerMaxEpochs = 100 ∧
    ¬((tunerTrainable 10 false cfgSampledBounds).trainerMaxEpochs ≤
        cfgSampledBounds.max_t) := by
  refine ⟨rfl, rfl, rfl, ?_⟩
  decide

/-- C2 amended: the swept max_t and grace_period values do not govern the
trials they are sampled for — the trainable ignores them entirely (its
setup is unchanged when they are replaced by any fixed values), every
trial's Trainer is capped at max_epochs = 100, and the single scheduler is
constructed once with max over the max_t grid-search dict and min over the
grace-period grid-search dict, which are the dict key "grid_search". -/
theorem C2_amended_global_schedule (cfg : TrialConfig) (nf : ℕ) (tty : Bool) :
    (tunerTrainable nf tty cfg).trainerMaxEpochs = 100 ∧
    tunerTrainable nf tty cfg =
      tunerTrainable nf tty
        ⟨cfg.optimizer, cfg.loss_function, cfg.activation, 40, 5⟩ ∧
    schedulerMaxTArg = some (.ofStr "grid_search") ∧
    schedulerGracePeriodArg = some (.ofStr "grid_search") :=
  ⟨rfl, rfl, rfl, rfl⟩

/-- C9 counterexample: the values handed to the ASHAScheduler constructor
are Python max/min over the grid-search spec dicts, which iterate the dict
keys and hence yield the string "grid_search" — not the integers 40 and 5
the claim states. -/
theorem C9_counterexample :
    schedulerMaxTArg = some (.ofStr "grid_search") ∧
    schedulerMaxTArg ≠ some (.ofInt 40) ∧
    schedulerGracePeriodArg = some (.ofStr "grid_search") ∧
    schedulerGracePeriodArg ≠ some (.ofInt 5) := by
  refine ⟨rfl, ?_, rfl, ?_⟩ <;> decide

/-- C9 amended: two trial configurations agreeing on optimizer,
loss_function and activation but differing in max_t and/or grace_period
produce identical training setups; every trial's Trainer is constructed
with max_epochs = 100. (The scheduler is constructed once for all trials;
its argument values are settled in the counterexample.) -/
theorem C9_trainable_invariance (c1 c2 : TrialConfig) (nf : ℕ) (tty : Bool)
    (hopt : c1.optimizer = c2.optimizer)
    (hloss : c1.loss_function = c2.loss_function)
    (hact : c1.activation = c2.activation) :
    tunerTrainable nf tty c1 = tunerTrainable nf tty c2 ∧
    (tunerTrainable nf tty c1).trainerMaxEpochs = 100 := by
  constructor
  · simp [tunerTrainable, train_model_tune, hopt, hloss, hact]
  · rfl

/-- C9 witness: two concrete configurations differing in both schedule
knobs but in nothing else give identical training setups. -/
theorem C9_trainable_invariance_witness :
    cfgVariantA.optimizer = cfgVariantB.optimizer ∧
    cfgVariantA.loss_function = cfgVariantB.loss_function ∧
    cfgVariantA.activation = cfgVariantB.activation ∧
    cfgVariantA.max_t ≠ cfgVariantB.max_t ∧
    cfgVariantA.grace_period ≠ cfgVariantB.grace_period ∧
    tunerTrainable 12 true cfgVariantA = tunerTrainable 12 true cfgVariantB ∧
    (tunerTrainable 12 true cfgVariantA).trainerMaxEpochs = 100 :=
  ⟨rfl, rfl, rfl, by decide, by decide,
   (C9_trainable_invariance cfgVariantA cfgVariantB 12 true rfl rfl rfl).1,
   (C9_trainable_invariance cfgVariantA cfgVariantB 12 true rfl rfl rfl).2⟩

/-- C3: for every dataset and every permutation of its index range (the
seeded shuffler yields one such permutation as a pure function of the fixed
seed), the split preserves the row count, the test set holds ceil(0.2 n)
rows and the train set the rest, together they are a permutation of the
original rows with disjoint index slices, and the split is deterministic:
the same inputs give the same partition. -/
theorem C3_split_properties {α : Type} (xs : List α) (perm : List ℕ)
    (h : perm.Perm (List.range xs.length)) :
    (train_test_split xs perm).1.length + (train_test_split xs perm).2.length
        = xs.length ∧
    (train_test_split xs perm).2.length = n_test xs.length ∧
    (train_test_split xs perm).1.length = xs.length - n_test xs.length ∧
    ((train_test_split xs perm).2 ++ (train_test_split xs perm).1).Perm xs ∧
    List.Disjoint (perm.take (n_test xs.length))
      (perm.drop (n_test xs.length)) ∧
    train_test_split xs perm = train_test_split xs perm := by
  have hp := applyPerm_perm xs perm h
  have hlen : (applyPerm xs perm).length = xs.length := hp.length_eq
  have hnt : n_test xs.length ≤ xs.length := by
    unfold n_test
    omega
  have hte : (train_test_split xs perm).2.length = n_test xs.length := by
    simp only [train_test_split, List.length_take, hlen]
    omega
  have htr : (train_test_split xs perm).1.length
      = xs.length - n_test xs.length := by
    simp only [train_test_split, List.length_drop, hlen]
  have happ : (train_test_split xs perm).2 ++ (train_test_split xs perm).1
      = applyPerm xs perm := List.take_append_drop _ _
  have hnd : perm.Nodup := h.nodup_iff.mpr (List.nodup_range _)
  have hdisj : List.Disjoint (perm.take (n_test xs.length))
      (perm.drop (n_test xs.length)) := by
    have h2 : (perm.take (n_test xs.length) ++
        perm.drop (n_test xs.length)).Nodup := by
      rw [List.take_append_drop]
      exact hnd
    exact (List.nodup_append.mp h2).2.2
  refine ⟨by omega, hte, htr, ?_, hdisj, rfl⟩
  rw [happ]
  exact hp

/-- C3 witness: five rows split under a concrete permutation of their index
range: one test row (ceil(0.2*5) = 1) and four train rows, together a
permutation of the input. -/
theorem C3_split_properties_witness :
    splitPerm.Perm (List.range splitRows.length) ∧
    (train_test_split splitRows splitPerm).2 = [30] ∧
    (train_test_split splitRows splitPerm).1 = [10, 50, 20, 40] ∧
    ((train_test_split splitRows splitPerm).1.length +
        (train_test_split splitRows splitPerm).2.length = splitRows.length ∧
     (train_test_split splitRows splitPerm).2.length
        = n_test splitRows.length ∧
     (train_test_split splitRows splitPerm).1.length
        = splitRows.length - n_test splitRows.length ∧
     ((train_test_split splitRows splitPerm).2 ++
        (train_test_split splitRows splitPerm).1).Perm splitRows ∧
     List.Disjoint (splitPerm.take (n_test splitRows.length))
        (splitPerm.drop (n_test splitRows.length)) ∧
     train_test_split splitRows splitPerm
        = train_test_split splitRows splitPerm) :=
  ⟨by decide, by decide, by decide,
   C3_split_properties splitRows splitPerm (by decide)⟩

/-- C8: for every batch size B > 0 and dataset, the loader yields
ceil(S/B) batches whose concatenation is the dataset, every batch is
nonempty with at most B elements, every batch except possibly the last has
exactly B elements; the training loader is configured with batch size 1024
and shuffling, the evaluation loader with batch size 1024 and no
shuffling, and both use min(8, cpu_count) workers. -/
theorem C8_loader_batching {α : Type} (B : ℕ) (hB : 0 < B) (xs : List α)
    (cpu : ℕ) :
    (batches B xs).length = (xs.length + B - 1) / B ∧
    (batches B xs).flatten = xs ∧
    (∀ c ∈ batches B xs, c ≠ [] ∧ c.length ≤ B) ∧
    (∀ c ∈ (batches B xs).dropLast, c.length = B) ∧
    train_dataloader_cfg cpu = ⟨1024, true, min 8 cpu⟩ ∧
    test_dataloader_cfg cpu = ⟨1024, false, min 8 cpu⟩ := by
  obtain ⟨b, rfl⟩ : ∃ b, B = b + 1 := ⟨B - 1, by omega⟩
  exact ⟨batches_length_le b xs.length xs le_rfl,
         batches_flatten_le b xs.length xs le_rfl,
         batches_sizes_le b xs.length xs le_rfl,
         batches_dropLast_le b xs.length xs le_rfl,
         rfl, rfl⟩

/-- C8 witness: seven samples at batch size 3 give ceil(7/3) = 3 batches,
the last smaller, on a 4-core machine. -/
theorem C8_loader_batching_witness :
    (0 : ℕ) < 3 ∧
    batches 3 ([1, 2, 3, 4, 5, 6, 7] : List ℕ) = [[1, 2, 3], [4, 5, 6], [7]] ∧
    ((batches 3 ([1, 2, 3, 4, 5, 6, 7] : List ℕ)).length
        = (([1, 2, 3, 4, 5, 6, 7] : List ℕ).length + 3 - 1) / 3 ∧
     (batches 3 ([1, 2, 3, 4, 5, 6, 7] : List ℕ)).flatten
        = [1, 2, 3, 4, 5, 6, 7] ∧
     (∀ c ∈ batches 3 ([1, 2, 3, 4, 5, 6, 7] : List ℕ),
        c ≠ [] ∧ c.length ≤ 3) ∧
     (∀ c ∈ (batches 3 ([1, 2, 3, 4, 5, 6, 7] : List ℕ)).dropLast,
        c.length = 3) ∧
     train_dataloader_cfg 4 = ⟨1024, true, min 8 4⟩ ∧
     test_dataloader_cfg 4 = ⟨1024, false, min 8 4⟩) :=
  ⟨by decide, by simp [batches],
   C8_loader_batching 3 (by decide) [1, 2, 3, 4, 5, 6, 7] 4⟩
